import Mathlib

/-!
Shallow embedding of the DAP debug server in
`src/varphi_python_dap/lib/debugger.py` (class `DAPServer`), together with
the parts of the external execution engine (`varphi_python`, `varphi_devkit`)
that the server reads.  The engine is an external collaborator: its default
tape symbol `BLANK` is kept as a parameter, its `step`/`peek` behaviour is an
oracle (`EngineOutcome`), and its sparse tape memory is the association list
`Tape._tape` (a Python dict with distinct keys).
-/

/-- A JSON-like value, enough for the message bodies the server builds. -/
inductive JVal where
  | str (s : String)
  | int (n : Int)
  | bool (b : Bool)
  | arr (xs : List JVal)
  | obj (fields : List (String × JVal))
  | null

/-- A message before the outgoing sequence number is stamped on it by
`_send_message`: either a response or an event. -/
inductive RawMsg where
  | response (request_seq : Int) (command : String) (success : Bool)
      (body : Option JVal) (message : Option String)
  | event (name : String) (body : Option JVal)

/-- A message as actually written to the wire, carrying the `seq` that
`_send_message` assigned. -/
structure SentMsg where
  seq : Nat
  msg : RawMsg

/-- An engine instruction; the server only reads its `line_number`. -/
structure Instruction where
  line_number : Int

/-- The engine's sparse tape memory: the Python dict `tape._tape`, keys are
visited indices.  Keys are distinct (it is a dict); unvisited indices read as
the default symbol. -/
structure Tape where
  _tape : List (Int × Char)

/-- A tape head as the server reads it: current index plus its tape. -/
structure Head where
  index : Int
  tape : Tape

/-- Engine method `space_complexity`: per the Engine View, the number of
visited cells of the head's tape. -/
def Head.space_complexity (h : Head) : Nat := h.tape._tape.length

/-- The engine state the server reads: `tm._next_instruction`,
`tm.state.name`, and the per-tape structures (`tm.heads`, which the source
also iterates as `tm.tapes`). -/
structure Machine where
  next_instruction : Option Instruction
  state_name : String
  heads : List Head

/-- Oracle for one `tm.step()` / `tm.peek()` round inside `_step_machine`:
either `step` raises, or `step` succeeds and `peek` raises, or both succeed
and `peek` returns `hasNext`.  Each case carries the engine state after the
calls. -/
inductive EngineOutcome where
  | stepRaises (msg : String) (m : Machine)
  | stepOkPeekRaises (msg : String) (m : Machine)
  | stepOk (hasNext : Bool) (m : Machine)

/-- The mutable state of `DAPServer`, plus the trace `out` of every message
written to the real stdout (in order). -/
structure ServerState where
  tm : Machine
  breakpoints : List Int
  running : Bool
  step_granularity : Option String
  steps_count : Nat
  seq : Nat
  out : List SentMsg

/-- Result of running a handler / dispatch step: normal return, a Python
exception propagating (`raised`), or `sys.exit` (`exitProc`).  Each carries
the server state at that point (mutations made before the raise persist). -/
inductive HRes where
  | ok (s : ServerState)
  | raised (e : String) (s : ServerState)
  | exitProc (s : ServerState)

/-- The server state inside any `HRes`. -/
def HRes.state : HRes → ServerState
  | .ok s => s
  | .raised _ s => s
  | .exitProc s => s

/-- Whether an `HRes` is a propagating exception. -/
def HRes.isRaised : HRes → Bool
  | .raised _ _ => true
  | _ => false

/-- `_send_message`: under the writer lock, increment the shared counter,
stamp it on the message, and write the frame. -/
def sendMessage (s : ServerState) (m : RawMsg) : ServerState :=
  { s with seq := s.seq + 1, out := s.out ++ [⟨s.seq + 1, m⟩] }

/-- Python truthiness of a JSON value (`if body:`). -/
def jTruthy : JVal → Bool
  | .str s => s ≠ ""
  | .int n => n ≠ 0
  | .bool b => b
  | .arr xs => !xs.isEmpty
  | .obj fs => !fs.isEmpty
  | .null => false

/-- `if body: resp["body"] = body` — keep the body only when truthy. -/
def bodyIfTruthy : Option JVal → Option JVal
  | some v => if jTruthy v then some v else none
  | none => none

/-- `if message: resp["message"] = message` — keep a non-empty string. -/
def msgIfTruthy : Option String → Option String
  | some m => if m = "" then none else some m
  | none => none

/-- A parsed incoming request.  Fields are optional because the JSON object
may lack them; reading a missing field raises `KeyError`. -/
structure ReqArgs where
  lines? : Option (List Int)

structure Request where
  type? : Option String
  seq? : Option Int
  command? : Option String
  arguments? : Option ReqArgs

/-- `_send_event`: build the event message and send it. -/
def sendEvent (name : String) (body : Option JVal) (s : ServerState) : ServerState :=
  sendMessage s (.event name (bodyIfTruthy body))

/-- `_send_response`: reads `req["seq"]` and `req["command"]` (raising
`KeyError` when absent), then sends the response message. -/
def sendResponse (req : Request) (success : Bool) (body : Option JVal)
    (message : Option String) (s : ServerState) : HRes :=
  match req.seq? with
  | none => .raised "KeyError: seq" s
  | some sq =>
    match req.command? with
    | none => .raised "KeyError: command" s
    | some cmd =>
      .ok (sendMessage s (.response sq cmd success (bodyIfTruthy body) (msgIfTruthy message)))

/-- Sequencing of fallible steps inside a handler. -/
def HRes.andThen (r : HRes) (f : ServerState → HRes) : HRes :=
  match r with
  | .ok s => f s
  | .raised e s => .raised e s
  | .exitProc s => .exitProc s

/-- Dict lookup `tape._tape.get(k, d)`. -/
def tapeGet (t : Tape) (k : Int) (d : Char) : Char :=
  match t._tape.lookup k with
  | some c => c
  | none => d

/-- `min(tape_dict.keys())` (only used on a non-empty dict). -/
def minKey (t : Tape) : Int :=
  match t._tape.map Prod.fst with
  | [] => 0
  | k :: ks => ks.foldl min k

/-- `max(tape_dict.keys())` (only used on a non-empty dict). -/
def maxKey (t : Tape) : Int :=
  match t._tape.map Prod.fst with
  | [] => 0
  | k :: ks => ks.foldl max k

/-- Python `range(lo, hi + 1)` over integers. -/
def intRange (lo hi : Int) : List Int :=
  (List.range (hi - lo + 1).toNat).map (fun j => lo + Int.ofNat j)

/-- The contiguous tape content from the minimum to the maximum visited
index, with the engine default symbol `BLANK` filling unvisited gaps
(`_print_halt_report`'s `content`). -/
def tapeSpan (BLANK : Char) (t : Tape) : String :=
  if t._tape = [] then ""
  else String.mk ((intRange (minKey t) (maxKey t)).map (fun k => tapeGet t k BLANK))

/-- Python `str.strip(c)` for a single-character strip set: remove every
leading and trailing occurrence of `c`. -/
def stripChar (c : Char) (s : String) : String :=
  String.mk (((s.data.dropWhile (· = c)).reverse.dropWhile (· = c)).reverse)

/-- The lines of the halt report built by `_print_halt_report`: header,
step count, footprint, tape count, then one line per tape with the span
trimmed by `str.strip("_")`. -/
def haltReportLines (BLANK : Char) (s : ServerState) : List String :=
  ["HALTED at state \x27" ++ s.tm.state_name ++ "\x27",
   "Time taken: " ++ toString s.steps_count ++ " steps",
   "Space used: " ++ toString (s.tm.heads.map Head.space_complexity).sum ++ " cells",
   "Number of tapes: " ++ toString s.tm.heads.length]
  ++ s.tm.heads.enum.map
      (fun p => "Tape " ++ toString (p.1 + 1) ++ ": " ++ stripChar '_' (tapeSpan BLANK p.2.tape))

/-- The argument `print` is given: `"\n" + "\n".join(report) + "\n"`. -/
def haltReportText (BLANK : Char) (s : ServerState) : String :=
  "\n" ++ String.intercalate "\n" (haltReportLines BLANK s) ++ "\n"

/-- Body of an `output` event as emitted by the `DAPStdout`/`DAPStderr`
redirection of `sys.stdout`/`sys.stderr`. -/
def outputBody (category text : String) : JVal :=
  .obj [("category", .str category), ("output", .str text)]

/-- `_print_halt_report`: `print(text)` writes the text and then the end
separator `"\n"` with two separate `write` calls, each of which `DAPStdout`
turns into one `output` event. -/
def printHaltReport (BLANK : Char) (s : ServerState) : ServerState :=
  sendEvent "output" (some (outputBody "stdout" "\n"))
    (sendEvent "output" (some (outputBody "stdout" (haltReportText BLANK s))) s)

/-- `_step_machine`: termination check, breakpoint check (skipped when
single-stepping), one guarded engine step, then the single-step pause. -/
def stepMachine (BLANK : Char) (eng : EngineOutcome) (s : ServerState) : ServerState :=
  match s.tm.next_instruction with
  | none =>
    sendEvent "exited" (some (.obj [("exitCode", .int 0)]))
      (sendEvent "terminated" none
        (printHaltReport BLANK { s with running := false }))
  | some instr =>
    if s.step_granularity ≠ some "step" ∧ instr.line_number ∈ s.breakpoints then
      sendEvent "stopped"
        (some (.obj [("reason", .str "breakpoint"), ("threadId", .int 1),
                     ("allThreadsStopped", .bool true)]))
        { s with running := false }
    else
      match eng with
      | .stepRaises msg m =>
        sendEvent "stopped"
          (some (.obj [("reason", .str "exception"),
                       ("description", .str "Paused on exception"),
                       ("text", .str msg), ("threadId", .int 1)]))
          (sendEvent "output" (some (outputBody "stderr" ("\nRUNTIME ERROR: " ++ msg ++ "\n")))
            { s with tm := m, running := false })
      | .stepOkPeekRaises msg m =>
        sendEvent "stopped"
          (some (.obj [("reason", .str "exception"),
                       ("description", .str "Paused on exception"),
                       ("text", .str msg), ("threadId", .int 1)]))
          (sendEvent "output" (some (outputBody "stderr" ("\nRUNTIME ERROR: " ++ msg ++ "\n")))
            { s with tm := m, steps_count := s.steps_count + 1, running := false })
      | .stepOk hasNext m =>
        if s.step_granularity = some "step" then
          sendEvent "stopped"
            (some (.obj [("reason", .str (if hasNext then "step" else "pause")),
                         ("threadId", .int 1)]))
            { s with tm := m, steps_count := s.steps_count + 1,
                     running := false, step_granularity := none }
        else
          { s with tm := m, steps_count := s.steps_count + 1 }

/-- `handle_initialize`: capability response then `initialized` event. -/
def handleInitializeReq (req : Request) (s : ServerState) : HRes :=
  (sendResponse req true
      (some (.obj [("supportsConfigurationDoneRequest", .bool true),
                   ("supportsSetVariable", .bool false),
                   ("supportsValueFormattingOptions", .bool false),
                   ("supportsExceptionInfoRequest", .bool true)])) none s).andThen
    (fun s1 => .ok (sendEvent "initialized" none s1))

def handle_launch (req : Request) (s : ServerState) : HRes :=
  sendResponse req true none none s

/-- `handle_setBreakpoints`: `req["arguments"]` (KeyError when absent), the
dict comprehension over `lines` replaces the breakpoint set, and the response
lists one `{verified, line}` entry per element of `lines`. -/
def dictKeys (l : List Int) : List Int :=
  l.foldl (fun acc x => if x ∈ acc then acc else acc ++ [x]) []

def handle_setBreakpoints (req : Request) (s : ServerState) : HRes :=
  match req.arguments? with
  | none => .raised "KeyError: arguments" s
  | some args =>
    let lines := args.lines?.getD []
    sendResponse req true
      (some (.obj [("breakpoints",
        .arr (lines.map (fun ln => .obj [("verified", .bool true), ("line", .int ln)])))]))
      none
      { s with breakpoints := dictKeys lines }

def handle_configurationDone (req : Request) (s : ServerState) : HRes :=
  (sendResponse req true none none s).andThen
    (fun s1 => .ok (sendEvent "stopped"
      (some (.obj [("reason", .str "entry"), ("threadId", .int 1)])) s1))

def handle_threads (req : Request) (s : ServerState) : HRes :=
  sendResponse req true
    (some (.obj [("threads", .arr [.obj [("id", .int 1), ("name", .str "Main Thread")]])]))
    none s

def handle_stackTrace (req : Request) (s : ServerState) : HRes :=
  let line : Int :=
    match s.tm.next_instruction with
    | some instr => instr.line_number
    | none => 0
  let name : String :=
    match s.tm.next_instruction with
    | some _ => "State: " ++ s.tm.state_name
    | none => "HALTED (State: " ++ s.tm.state_name ++ ")"
  sendResponse req true
    (some (.obj [("stackFrames",
        .arr [.obj [("id", .int 1), ("name", .str name), ("line", .int line),
                    ("column", .int 1), ("presentationHint", .str "normal")]]),
      ("totalFrames", .int 1)]))
    none s

def handle_scopes (req : Request) (s : ServerState) : HRes :=
  sendResponse req true
    (some (.obj [("scopes",
      .arr [.obj [("name", .str "Machine State"), ("variablesReference", .int 1),
                  ("expensive", .bool false)]])]))
    none s

/-- The fixed-width tape window of `handle_variables`: five cells left of the
head, the head cell in brackets, five cells right, unvisited cells shown as
the engine default symbol. -/
def tapeDisplay (BLANK : Char) (h : Head) : String :=
  String.mk ((intRange (h.index - 5) (h.index - 1)).map (fun x => tapeGet h.tape x BLANK))
    ++ "[" ++ String.mk [tapeGet h.tape h.index BLANK] ++ "]"
    ++ String.mk ((intRange (h.index + 1) (h.index + 5)).map (fun x => tapeGet h.tape x BLANK))

/-- The variables list of `handle_variables`: state name, step counter,
total footprint, then one window per tape (all reads are non-mutating). -/
def variablesList (BLANK : Char) (s : ServerState) : List JVal :=
  [.obj [("name", .str "Current State"), ("value", .str s.tm.state_name),
         ("type", .str "string"), ("variablesReference", .int 0)],
   .obj [("name", .str "Time taken"), ("value", .str (toString s.steps_count)),
         ("type", .str "integer"), ("variablesReference", .int 0)],
   .obj [("name", .str "Space used"),
         ("value", .str (toString (s.tm.heads.map Head.space_complexity).sum)),
         ("type", .str "integer"), ("variablesReference", .int 0)]]
  ++ s.tm.heads.enum.map
      (fun p => .obj [("name", .str ("Tape " ++ toString (p.1 + 1))),
                      ("value", .str (tapeDisplay BLANK p.2)),
                      ("type", .str "string"), ("variablesReference", .int 0)])

def handle_variables (BLANK : Char) (req : Request) (s : ServerState) : HRes :=
  sendResponse req true (some (.obj [("variables", .arr (variablesList BLANK s))])) none s

def handle_next (req : Request) (s : ServerState) : HRes :=
  sendResponse req true none none
    { s with step_granularity := some "step", running := true }

def handle_stepIn (req : Request) (s : ServerState) : HRes :=
  handle_next req s

def handle_continue (req : Request) (s : ServerState) : HRes :=
  sendResponse req true none none
    { s with step_granularity := none, running := true }

def handle_pause (req : Request) (s : ServerState) : HRes :=
  (sendResponse req true none none { s with running := false }).andThen
    (fun s1 => .ok (sendEvent "stopped"
      (some (.obj [("reason", .str "pause"), ("threadId", .int 1)])) s1))

/-- `handle_disconnect`: ack then `sys.exit(0)` (a `SystemExit`, not caught
by the `except Exception` of `_handle_request`). -/
def handle_disconnect (req : Request) (s : ServerState) : HRes :=
  (sendResponse req true none none { s with running := false }).andThen
    (fun s1 => .exitProc s1)

def handle_exceptionInfo (req : Request) (s : ServerState) : HRes :=
  sendResponse req true
    (some (.obj [("exceptionId", .str "runtime_error"),
                 ("description", .str "An error occurred during execution"),
                 ("breakMode", .str "always")]))
    none s

/-- The `getattr(self, f"handle_{cmd}", None)` lookup followed by the call,
with the not-implemented failure response when no handler exists. -/
def dispatchExec (BLANK : Char) (cmd : String) (req : Request) (s : ServerState) : HRes :=
  if cmd = "initialize" then handleInitializeReq req s
  else if cmd = "launch" then handle_launch req s
  else if cmd = "setBreakpoints" then handle_setBreakpoints req s
  else if cmd = "configurationDone" then handle_configurationDone req s
  else if cmd = "threads" then handle_threads req s
  else if cmd = "stackTrace" then handle_stackTrace req s
  else if cmd = "scopes" then handle_scopes req s
  else if cmd = "variables" then handle_variables BLANK req s
  else if cmd = "next" then handle_next req s
  else if cmd = "stepIn" then handle_stepIn req s
  else if cmd = "continue" then handle_continue req s
  else if cmd = "pause" then handle_pause req s
  else if cmd = "disconnect" then handle_disconnect req s
  else if cmd = "exceptionInfo" then handle_exceptionInfo req s
  else sendResponse req false none (some ("Command " ++ cmd ++ " not implemented")) s

/-- The body of the `try` block of `_handle_request`: read `req["type"]`
(KeyError when absent), ignore non-requests, read `req["command"]` and
dispatch. -/
def handleRequestBody (BLANK : Char) (req : Request) (s : ServerState) : HRes :=
  match req.type? with
  | none => .raised "KeyError: type" s
  | some ty =>
    if ty = "request" then
      match req.command? with
      | none => .raised "KeyError: command" s
      | some cmd => dispatchExec BLANK cmd req s
    else
      .ok s

/-- `_handle_request`: dispatch under `try`, with `except Exception` sending
a failure response whose message is the exception description.  That recovery
call itself reads `req["seq"]`/`req["command"]` and may raise again; a
`SystemExit` from `disconnect` is not caught. -/
def handleRequest (BLANK : Char) (req : Request) (s : ServerState) : HRes :=
  match handleRequestBody BLANK req s with
  | .raised e s1 => sendResponse req false none (some e) s1
  | r => r

/-- One input observed by an iteration of `run_event_loop`: either a dequeued
message or an empty non-blocking poll, together with the engine oracle for
the step (if one happens). -/
inductive LoopInput where
  | req (r : Request) (eng : EngineOutcome)
  | tick (eng : EngineOutcome)

/-- One iteration of `run_event_loop`: pop and dispatch at most one message,
then advance the engine exactly once if still running. -/
def loopStep (BLANK : Char) (inp : LoopInput) (s : ServerState) : HRes :=
  match inp with
  | .req r eng =>
    match handleRequest BLANK r s with
    | .ok s1 => .ok (if s1.running then stepMachine BLANK eng s1 else s1)
    | other => other
  | .tick eng =>
    .ok (if s.running then stepMachine BLANK eng s else s)

/-- The event loop over a finite prefix of inputs; stops early when an
exception escapes the dispatch step or the process exits. -/
def runLoop (BLANK : Char) (inps : List LoopInput) (s : ServerState) : HRes :=
  match inps with
  | [] => .ok s
  | i :: rest =>
    match loopStep BLANK i s with
    | .ok s1 => runLoop BLANK rest s1
    | other => other

/-- `DAPServer.__init__`: empty breakpoint set, not running, granularity
"instruction", zero steps, zero outgoing seq, nothing written yet.  The
machine passed in is the engine state after the initial `peek`. -/
def initServer (tm : Machine) : ServerState :=
  { tm := tm, breakpoints := [], running := false,
    step_granularity := some "instruction", steps_count := 0, seq := 0, out := [] }

/-- Whether a `_step_machine` call reaches `tm.step()` and that call
completes without raising: there is a pending instruction, the breakpoint
stop is not taken, and the engine does not raise in `step` itself. -/
def stepCommitted (eng : EngineOutcome) (s : ServerState) : Bool :=
  match s.tm.next_instruction with
  | none => false
  | some instr =>
    (decide (s.step_granularity = some "step") || !(decide (instr.line_number ∈ s.breakpoints)))
    && (match eng with | .stepRaises _ _ => false | _ => true)

/-- How many events named `name` the server has emitted. -/
def countEvent (name : String) (s : ServerState) : Nat :=
  (s.out.filter (fun m =>
    match m.msg with
    | .event n _ => n == name
    | _ => false)).length

/-- Concrete fixtures for witnesses and counterexamples. -/
def haltedMachine : Machine := ⟨none, "q0", [⟨0, ⟨[]⟩⟩]⟩

def contReq : Request := ⟨some "request", some 2, some "continue", none⟩

def reqNoSeq : Request := ⟨some "request", none, some "launch", none⟩

def bpReq55 : Request := ⟨some "request", some 7, some "setBreakpoints", some ⟨some [5, 5]⟩⟩

def reqBadArgs : Request := ⟨some "request", some 9, some "setBreakpoints", none⟩

def tape10 : Tape := ⟨[(0, '1'), (1, '0')]⟩

def haltedMachine10 : Machine := ⟨none, "q0", [⟨0, tape10⟩]⟩

def engNoop : EngineOutcome := .stepOk false ⟨none, "q0", []⟩

def c3State : ServerState :=
  { tm := ⟨some ⟨3⟩, "q1", []⟩, breakpoints := [3], running := true,
    step_granularity := some "step", steps_count := 0, seq := 0, out := [] }

def c3NextMachine : Machine := ⟨some ⟨4⟩, "q1", []⟩

def c7State : ServerState :=
  { tm := ⟨some ⟨2⟩, "q0", []⟩, breakpoints := [], running := true,
    step_granularity := none, steps_count := 3, seq := 0, out := [] }

def c8Head : Head := ⟨0, ⟨[(-1, 'a'), (0, 'b')]⟩⟩

def c8State : ServerState :=
  { tm := ⟨some ⟨1⟩, "q0", [c8Head]⟩, breakpoints := [], running := false,
    step_granularity := none, steps_count := 0, seq := 0, out := [] }

/-! ## Theorems -/

/-- The outgoing sequence numbers of the messages written so far are
strictly increasing, and all bounded by the shared counter. -/
def SeqInv (s : ServerState) : Prop :=
  List.Chain' (· < ·) (s.out.map SentMsg.seq) ∧ ∀ m ∈ s.out, m.seq ≤ s.seq

theorem seqInv_sendMessage (s : ServerState) (m : RawMsg) (h : SeqInv s) :
    SeqInv (sendMessage s m) := by
  obtain ⟨hchain, hle⟩ := h
  constructor
  · simp only [sendMessage, List.map_append]
    refine List.chain'_append.2 ⟨hchain, List.chain'_singleton _, ?_⟩
    intro x hx y hy
    simp only [List.map_cons, List.map_nil, List.head?_cons, Option.mem_def,
      Option.some.injEq] at hy
    subst hy
    have hx' : x ∈ s.out.map SentMsg.seq := by
      obtain ⟨hne, rfl⟩ := List.mem_getLast?_eq_getLast hx
      exact List.getLast_mem hne
    obtain ⟨mm, hmm, rfl⟩ := List.mem_map.1 hx'
    exact Nat.lt_succ_of_le (hle mm hmm)
  · intro m' hm'
    simp only [sendMessage, List.mem_append, List.mem_singleton] at hm'
    rcases hm' with hm' | rfl
    · exact Nat.le_succ_of_le (hle m' hm')
    · exact Nat.le_refl _

theorem seqInv_sendEvent (name : String) (body : Option JVal) (s : ServerState)
    (h : SeqInv s) : SeqInv (sendEvent name body s) :=
  seqInv_sendMessage s _ h

theorem seqInv_sendResponse (req : Request) (b : Bool) (body : Option JVal)
    (msg : Option String) (s : ServerState) (h : SeqInv s) :
    SeqInv (sendResponse req b body msg s).state := by
  unfold sendResponse
  split
  · exact h
  · split
    · exact h
    · exact seqInv_sendMessage s _ h

theorem seqInv_andThen (r : HRes) (f : ServerState → HRes)
    (hr : SeqInv r.state) (hf : ∀ t, SeqInv t → SeqInv (f t).state) :
    SeqInv (r.andThen f).state := by
  cases r with
  | ok s => exact hf s hr
  | raised e s => exact hr
  | exitProc s => exact hr

theorem seqInv_handleInitializeReq (req : Request) (s : ServerState) (h : SeqInv s) :
    SeqInv (handleInitializeReq req s).state :=
  seqInv_andThen _ _ (seqInv_sendResponse _ _ _ _ _ h) (fun _ ht => seqInv_sendEvent _ _ _ ht)

theorem seqInv_handle_launch (req : Request) (s : ServerState) (h : SeqInv s) :
    SeqInv (handle_launch req s).state :=
  seqInv_sendResponse _ _ _ _ _ h

theorem seqInv_handle_setBreakpoints (req : Request) (s : ServerState) (h : SeqInv s) :
    SeqInv (handle_setBreakpoints req s).state := by
  unfold handle_setBreakpoints
  cases req.arguments? with
  | none => exact h
  | some args => exact seqInv_sendResponse _ _ _ _ _ h

theorem seqInv_handle_configurationDone (req : Request) (s : ServerState) (h : SeqInv s) :
    SeqInv (handle_configurationDone req s).state :=
  seqInv_andThen _ _ (seqInv_sendResponse _ _ _ _ _ h) (fun _ ht => seqInv_sendEvent _ _ _ ht)

theorem seqInv_handle_threads (req : Request) (s : ServerState) (h : SeqInv s) :
    SeqInv (handle_threads req s).state :=
  seqInv_sendResponse _ _ _ _ _ h

theorem seqInv_handle_stackTrace (req : Request) (s : ServerState) (h : SeqInv s) :
    SeqInv (handle_stackTrace req s).state :=
  seqInv_sendResponse _ _ _ _ _ h

theorem seqInv_handle_scopes (req : Request) (s : ServerState) (h : SeqInv s) :
    SeqInv (handle_scopes req s).state :=
  seqInv_sendResponse _ _ _ _ _ h

theorem seqInv_handle_variables (BLANK : Char) (req : Request) (s : ServerState)
    (h : SeqInv s) : SeqInv (handle_variables BLANK req s).state :=
  seqInv_sendResponse _ _ _ _ _ h

theorem seqInv_handle_next (req : Request) (s : ServerState) (h : SeqInv s) :
    SeqInv (handle_next req s).state :=
  seqInv_sendResponse _ _ _ _ _ h

theorem seqInv_handle_continue (req : Request) (s : ServerState) (h : SeqInv s) :
    SeqInv (handle_continue req s).state :=
  seqInv_sendResponse _ _ _ _ _ h

theorem seqInv_handle_pause (req : Request) (s : ServerState) (h : SeqInv s) :
    SeqInv (handle_pause req s).state :=
  seqInv_andThen _ _ (seqInv_sendResponse _ _ _ _ _ h) (fun _ ht => seqInv_sendEvent _ _ _ ht)

theorem seqInv_handle_disconnect (req : Request) (s : ServerState) (h : SeqInv s) :
    SeqInv (handle_disconnect req s).state :=
  seqInv_andThen _ _ (seqInv_sendResponse _ _ _ _ _ h) (fun _ ht => ht)

theorem seqInv_handle_exceptionInfo (req : Request) (s : ServerState) (h : SeqInv s) :
    SeqInv (handle_exceptionInfo req s).state :=
  seqInv_sendResponse _ _ _ _ _ h

theorem seqInv_handle_stepIn (req : Request) (s : ServerState) (h : SeqInv s) :
    SeqInv (handle_stepIn req s).state :=
  seqInv_sendResponse _ _ _ _ _ h

theorem seqInv_dispatchExec (BLANK : Char) (cmd : String) (req : Request)
    (s : ServerState) (h : SeqInv s) : SeqInv (dispatchExec BLANK cmd req s).state := by
  unfold dispatchExec
  by_cases h1 : cmd = "initialize"
  · rw [if_pos h1]; exact seqInv_handleInitializeReq req s h
  rw [if_neg h1]
  by_cases h2 : cmd = "launch"
  · rw [if_pos h2]; exact seqInv_handle_launch req s h
  rw [if_neg h2]
  by_cases h3 : cmd = "setBreakpoints"
  · rw [if_pos h3]; exact seqInv_handle_setBreakpoints req s h
  rw [if_neg h3]
  by_cases h4 : cmd = "configurationDone"
  · rw [if_pos h4]; exact seqInv_handle_configurationDone req s h
  rw [if_neg h4]
  by_cases h5 : cmd = "threads"
  · rw [if_pos h5]; exact seqInv_handle_threads req s h
  rw [if_neg h5]
  by_cases h6 : cmd = "stackTrace"
  · rw [if_pos h6]; exact seqInv_handle_stackTrace req s h
  rw [if_neg h6]
  by_cases h7 : cmd = "scopes"
  · rw [if_pos h7]; exact seqInv_handle_scopes req s h
  rw [if_neg h7]
  by_cases h8 : cmd = "variables"
  · rw [if_pos h8]; exact seqInv_handle_variables BLANK req s h
  rw [if_neg h8]
  by_cases h9 : cmd = "next"
  · rw [if_pos h9]; exact seqInv_handle_next req s h
  rw [if_neg h9]
  by_cases h10 : cmd = "stepIn"
  · rw [if_pos h10]; exact seqInv_handle_stepIn req s h
  rw [if_neg h10]
  by_cases h11 : cmd = "continue"
  · rw [if_pos h11]; exact seqInv_handle_continue req s h
  rw [if_neg h11]
  by_cases h12 : cmd = "pause"
  · rw [if_pos h12]; exact seqInv_handle_pause req s h
  rw [if_neg h12]
  by_cases h13 : cmd = "disconnect"
  · rw [if_pos h13]; exact seqInv_handle_disconnect req s h
  rw [if_neg h13]
  by_cases h14 : cmd = "exceptionInfo"
  · rw [if_pos h14]; exact seqInv_handle_exceptionInfo req s h
  rw [if_neg h14]
  exact seqInv_sendResponse _ _ _ _ _ h

theorem seqInv_handleRequestBody (BLANK : Char) (req : Request) (s : ServerState)
    (h : SeqInv s) : SeqInv (handleRequestBody BLANK req s).state := by
  unfold handleRequestBody
  cases req.type? with
  | none => exact h
  | some ty =>
    by_cases hty : ty = "request"
    · simp only [hty, if_pos rfl]
      cases req.command? with
      | none => exact h
      | some cmd => exact seqInv_dispatchExec _ _ _ _ h
    · simp only [if_neg hty]
      exact h

theorem seqInv_handleRequest (BLANK : Char) (req : Request) (s : ServerState)
    (h : SeqInv s) : SeqInv (handleRequest BLANK req s).state := by
  have hb := seqInv_handleRequestBody BLANK req s h
  unfold handleRequest
  cases hq : handleRequestBody BLANK req s with
  | ok s1 => rw [hq] at hb; exact hb
  | raised e s1 => rw [hq] at hb; exact seqInv_sendResponse _ _ _ _ _ hb
  | exitProc s1 => rw [hq] at hb; exact hb

theorem seqInv_stepMachine (BLANK : Char) (eng : EngineOutcome) (s : ServerState)
    (h : SeqInv s) : SeqInv (stepMachine BLANK eng s) := by
  unfold stepMachine printHaltReport
  cases s.tm.next_instruction with
  | none =>
    exact seqInv_sendEvent _ _ _ (seqInv_sendEvent _ _ _
      (seqInv_sendEvent _ _ _ (seqInv_sendEvent _ _ _ h)))
  | some instr =>
    by_cases hbp : s.step_granularity ≠ some "step" ∧ instr.line_number ∈ s.breakpoints
    · simp only [if_pos hbp]
      exact seqInv_sendEvent _ _ _ h
    · simp only [if_neg hbp]
      cases eng with
      | stepRaises msg m => exact seqInv_sendEvent _ _ _ (seqInv_sendEvent _ _ _ h)
      | stepOkPeekRaises msg m => exact seqInv_sendEvent _ _ _ (seqInv_sendEvent _ _ _ h)
      | stepOk hasNext m =>
        by_cases hg : s.step_granularity = some "step"
        · simp only [if_pos hg]
          exact seqInv_sendEvent _ _ _ h
        · simp only [if_neg hg]
          exact h

theorem seqInv_loopStep (BLANK : Char) (inp : LoopInput) (s : ServerState)
    (h : SeqInv s) : SeqInv (loopStep BLANK inp s).state := by
  cases inp with
  | req r eng =>
    have hr := seqInv_handleRequest BLANK r s h
    simp only [loopStep]
    cases hq : handleRequest BLANK r s with
    | ok s1 =>
      rw [hq] at hr
      show SeqInv (if s1.running = true then stepMachine BLANK eng s1 else s1)
      cases hrun : s1.running
      · exact hr
      · exact seqInv_stepMachine _ _ _ hr
    | raised e s1 => rw [hq] at hr; exact hr
    | exitProc s1 => rw [hq] at hr; exact hr
  | tick eng =>
    simp only [loopStep]
    show SeqInv (if s.running = true then stepMachine BLANK eng s else s)
    cases hrun : s.running
    · exact h
    · exact seqInv_stepMachine _ _ _ h

theorem seqInv_runLoop (BLANK : Char) (inps : List LoopInput) (s : ServerState)
    (h : SeqInv s) : SeqInv (runLoop BLANK inps s).state := by
  induction inps generalizing s with
  | nil => exact h
  | cons i rest ih =>
    have hi := seqInv_loopStep BLANK i s h
    unfold runLoop
    cases hq : loopStep BLANK i s with
    | ok s1 => rw [hq] at hi; exact ih s1 hi
    | raised e s1 => rw [hq] at hi; exact hi
    | exitProc s1 => rw [hq] at hi; exact hi

theorem seqInv_initServer (tm : Machine) : SeqInv (initServer tm) := by
  constructor
  · simp [initServer]
  · intro m hm
    simp [initServer] at hm

/-- `_send_response` leaves the step counter unchanged in every outcome. -/
theorem steps_sendResponse (req : Request) (b : Bool) (body : Option JVal)
    (msg : Option String) (s : ServerState) :
    (sendResponse req b body msg s).state.steps_count = s.steps_count := by
  unfold sendResponse
  cases hq1 : req.seq? <;> cases hq2 : req.command? <;>
    simp [HRes.state, sendMessage, hq1, hq2]

theorem steps_respEvent (req : Request) (b : Bool) (body : Option JVal)
    (msg : Option String) (name : String) (ebody : Option JVal) (s : ServerState) :
    ((sendResponse req b body msg s).andThen
      (fun t => .ok (sendEvent name ebody t))).state.steps_count = s.steps_count := by
  unfold sendResponse HRes.andThen
  cases hq1 : req.seq? <;> cases hq2 : req.command? <;>
    simp [HRes.state, sendMessage, sendEvent, hq1, hq2]

theorem steps_respExit (req : Request) (b : Bool) (body : Option JVal)
    (msg : Option String) (s : ServerState) :
    ((sendResponse req b body msg s).andThen
      (fun t => .exitProc t)).state.steps_count = s.steps_count := by
  unfold sendResponse HRes.andThen
  cases hq1 : req.seq? <;> cases hq2 : req.command? <;>
    simp [HRes.state, sendMessage, hq1, hq2]

theorem steps_handle_setBreakpoints (req : Request) (s : ServerState) :
    (handle_setBreakpoints req s).state.steps_count = s.steps_count := by
  unfold handle_setBreakpoints
  cases req.arguments? with
  | none => rfl
  | some args => exact steps_sendResponse req true _ none _

theorem steps_dispatchExec (BLANK : Char) (cmd : String) (req : Request) (s : ServerState) :
    (dispatchExec BLANK cmd req s).state.steps_count = s.steps_count := by
  unfold dispatchExec
  by_cases h1 : cmd = "initialize"
  · rw [if_pos h1]; exact steps_respEvent req true _ none "initialized" none s
  rw [if_neg h1]
  by_cases h2 : cmd = "launch"
  · rw [if_pos h2]; exact steps_sendResponse req true none none s
  rw [if_neg h2]
  by_cases h3 : cmd = "setBreakpoints"
  · rw [if_pos h3]; exact steps_handle_setBreakpoints req s
  rw [if_neg h3]
  by_cases h4 : cmd = "configurationDone"
  · rw [if_pos h4]; exact steps_respEvent req true none none "stopped" _ s
  rw [if_neg h4]
  by_cases h5 : cmd = "threads"
  · rw [if_pos h5]; exact steps_sendResponse req true _ none s
  rw [if_neg h5]
  by_cases h6 : cmd = "stackTrace"
  · rw [if_pos h6]; exact steps_sendResponse req true _ none s
  rw [if_neg h6]
  by_cases h7 : cmd = "scopes"
  · rw [if_pos h7]; exact steps_sendResponse req true _ none s
  rw [if_neg h7]
  by_cases h8 : cmd = "variables"
  · rw [if_pos h8]; exact steps_sendResponse req true _ none s
  rw [if_neg h8]
  by_cases h9 : cmd = "next"
  · rw [if_pos h9]; exact steps_sendResponse req true none none _
  rw [if_neg h9]
  by_cases h10 : cmd = "stepIn"
  · rw [if_pos h10]; exact steps_sendResponse req true none none _
  rw [if_neg h10]
  by_cases h11 : cmd = "continue"
  · rw [if_pos h11]; exact steps_sendResponse req true none none _
  rw [if_neg h11]
  by_cases h12 : cmd = "pause"
  · rw [if_pos h12]; exact steps_respEvent req true none none "stopped" _ _
  rw [if_neg h12]
  by_cases h13 : cmd = "disconnect"
  · rw [if_pos h13]; exact steps_respExit req true none none _
  rw [if_neg h13]
  by_cases h14 : cmd = "exceptionInfo"
  · rw [if_pos h14]; exact steps_sendResponse req true _ none s
  rw [if_neg h14]
  exact steps_sendResponse req false none _ s

theorem steps_handleRequestBody (BLANK : Char) (req : Request) (s : ServerState) :
    (handleRequestBody BLANK req s).state.steps_count = s.steps_count := by
  unfold handleRequestBody
  split
  · rfl
  · split
    · split
      · rfl
      · exact steps_dispatchExec BLANK _ req s
    · rfl

/-- When the request carries `seq` and `command`, the `except Exception`
recovery of `_handle_request` always succeeds, so no exception propagates. -/
theorem sendResponse_keyed_not_raised (req : Request) (b : Bool) (body : Option JVal)
    (msg : Option String) (s : ServerState)
    (h1 : req.seq?.isSome = true) (h2 : req.command?.isSome = true) :
    (sendResponse req b body msg s).isRaised = false := by
  unfold sendResponse
  cases hq1 : req.seq? with
  | none => rw [hq1] at h1; simp at h1
  | some n =>
    cases hq2 : req.command? with
    | none => rw [hq2] at h2; simp at h2
    | some c => simp [hq1, hq2, HRes.isRaised]

theorem handleRequest_keyed_not_raised (BLANK : Char) (req : Request) (s : ServerState)
    (h1 : req.seq?.isSome = true) (h2 : req.command?.isSome = true) :
    (handleRequest BLANK req s).isRaised = false := by
  unfold handleRequest
  cases hq : handleRequestBody BLANK req s with
  | ok s1 => rfl
  | exitProc s1 => rfl
  | raised e s1 => exact sendResponse_keyed_not_raised req false none (some e) s1 h1 h2

theorem steps_handleRequest (BLANK : Char) (req : Request) (s : ServerState) :
    (handleRequest BLANK req s).state.steps_count = s.steps_count := by
  have hb := steps_handleRequestBody BLANK req s
  unfold handleRequest
  cases hq : handleRequestBody BLANK req s with
  | ok s1 => rw [hq] at hb; exact hb
  | exitProc s1 => rw [hq] at hb; exact hb
  | raised e s1 =>
    rw [hq] at hb
    exact (steps_sendResponse req false none (some e) s1).trans hb

/-- C1: every message the server emits carries a sequence number that is
strictly increasing (hence globally unique) over the session lifetime: for
any run of the event loop, any later message in the output trace has a
strictly greater `seq` than any earlier one. -/
theorem C1_emitted_seqs_strictly_increasing (BLANK : Char) (tm : Machine)
    (inps : List LoopInput) :
    ((runLoop BLANK inps (initServer tm)).state.out.map SentMsg.seq).Pairwise (· < ·) :=
  List.chain'_iff_pairwise.mp
    (seqInv_runLoop BLANK inps (initServer tm) (seqInv_initServer tm)).1

theorem steps_stepMachine (BLANK : Char) (eng : EngineOutcome) (s : ServerState) :
    (stepMachine BLANK eng s).steps_count =
      s.steps_count + (if stepCommitted eng s then 1 else 0) := by
  unfold stepMachine stepCommitted printHaltReport
  cases hn : s.tm.next_instruction with
  | none => simp [sendEvent, sendMessage]
  | some instr =>
    by_cases hg : s.step_granularity = some "step" <;>
      by_cases hb : instr.line_number ∈ s.breakpoints <;>
        cases eng <;>
          simp [hn, hg, hb, sendEvent, sendMessage]

/-- C10: the step counter equals the number of engine `step()` calls that
completed without raising: it starts at 0, no request handler changes it,
`_step_machine` adds exactly 1 precisely when it reaches a `tm.step()` call
that does not raise, and it never decreases. -/
theorem C10_steps_count_counts_successful_steps :
    (∀ tm : Machine, (initServer tm).steps_count = 0) ∧
    (∀ (BLANK : Char) (req : Request) (s : ServerState),
      (handleRequest BLANK req s).state.steps_count = s.steps_count) ∧
    (∀ (BLANK : Char) (eng : EngineOutcome) (s : ServerState),
      (stepMachine BLANK eng s).steps_count =
        s.steps_count + (if stepCommitted eng s then 1 else 0)) ∧
    (∀ (BLANK : Char) (eng : EngineOutcome) (s : ServerState),
      s.steps_count ≤ (stepMachine BLANK eng s).steps_count) :=
  ⟨fun _ => rfl, steps_handleRequest, steps_stepMachine,
   fun BLANK eng s => by rw [steps_stepMachine]; exact Nat.le_add_right _ _⟩

/-- C9: handling a `variables` request leaves the whole session state
unchanged: engine handle (tape memories and head positions included),
breakpoint set, run mode, step granularity and step counter are identical
before and after `handle_variables`. -/
theorem C9_handle_variables_leaves_state_unchanged (BLANK : Char) (req : Request)
    (s : ServerState) :
    (handle_variables BLANK req s).state.tm = s.tm ∧
    (handle_variables BLANK req s).state.breakpoints = s.breakpoints ∧
    (handle_variables BLANK req s).state.running = s.running ∧
    (handle_variables BLANK req s).state.step_granularity = s.step_granularity ∧
    (handle_variables BLANK req s).state.steps_count = s.steps_count := by
  unfold handle_variables sendResponse
  cases hq1 : req.seq? <;> cases hq2 : req.command? <;>
    simp [HRes.state, sendMessage, hq1, hq2]

/-- C4 counterexample: a request whose `seq` field is missing makes the
error-recovery response of `_handle_request` itself raise `KeyError`, so the
exception propagates out of `_handle_request` (into the main loop). -/
theorem C4_counterexample_missing_seq_propagates :
    handleRequest '0' reqNoSeq (initServer haltedMachine) =
      .raised "KeyError: seq" (initServer haltedMachine) ∧
    (handleRequest '0' reqNoSeq (initServer haltedMachine)).isRaised = true :=
  ⟨rfl, rfl⟩

/-- C4 amended: for every dequeued request that carries `seq` and `command`
fields, any exception raised during handling is caught and converted into a
failure response with the exception description, and nothing propagates out
of `_handle_request`; a request missing `seq` (or `command`) instead makes
the recovery response itself raise.  The second conjunct shows the
conversion on a concrete malformed request (missing `arguments`). -/
theorem C4_amended_keyed_requests_never_propagate :
    (∀ (BLANK : Char) (req : Request) (s : ServerState),
      req.seq?.isSome = true → req.command?.isSome = true →
      (handleRequest BLANK req s).isRaised = false) ∧
    handleRequest '0' reqBadArgs (initServer haltedMachine) =
      .ok (sendMessage (initServer haltedMachine)
        (.response 9 "setBreakpoints" false none (some "KeyError: arguments"))) :=
  ⟨handleRequest_keyed_not_raised, rfl⟩

theorem C4_amended_witness :
    reqBadArgs.seq?.isSome = true ∧ reqBadArgs.command?.isSome = true ∧
    (handleRequest '0' reqBadArgs (initServer haltedMachine)).isRaised = false :=
  ⟨rfl, rfl,
   C4_amended_keyed_requests_never_propagate.1 '0' reqBadArgs (initServer haltedMachine) rfl rfl⟩

/-- C3: while single-stepping (`step_granularity = "step"`), a pending
instruction whose line is in the active breakpoint set is still executed
(the breakpoint check is skipped), and when a next instruction remains the
single stopped event emitted has reason "step", never "breakpoint". -/
theorem C3_single_step_skips_breakpoints (BLANK : Char) (s : ServerState)
    (instr : Instruction) (m : Machine)
    (hg : s.step_granularity = some "step")
    (hn : s.tm.next_instruction = some instr)
    (hb : instr.line_number ∈ s.breakpoints) :
    (stepMachine BLANK (.stepOk true m) s).steps_count = s.steps_count + 1 ∧
    (stepMachine BLANK (.stepOk true m) s).out.map SentMsg.msg =
      s.out.map SentMsg.msg ++
        [.event "stopped" (some (.obj [("reason", .str "step"), ("threadId", .int 1)]))] := by
  simp [stepMachine, hn, hg, sendEvent, sendMessage, bodyIfTruthy, jTruthy]

theorem C3_witness :
    c3State.step_granularity = some "step" ∧
    c3State.tm.next_instruction = some ⟨3⟩ ∧
    (3 : Int) ∈ c3State.breakpoints ∧
    ((stepMachine '0' (.stepOk true c3NextMachine) c3State).steps_count =
        c3State.steps_count + 1 ∧
     (stepMachine '0' (.stepOk true c3NextMachine) c3State).out.map SentMsg.msg =
       c3State.out.map SentMsg.msg ++
         [.event "stopped" (some (.obj [("reason", .str "step"), ("threadId", .int 1)]))]) :=
  ⟨rfl, rfl, by decide,
   C3_single_step_skips_breakpoints '0' c3State ⟨3⟩ c3NextMachine rfl rfl (by decide)⟩

/-- C2 amended: each `_step_machine` call that finds no pending instruction
clears `running` and emits the halt report (two output events) followed by
exactly one terminated and one exited with exitCode 0, in that order; the
server keeps no halted flag, so nothing prevents a later continue/next from
re-arming `running` and repeating the sequence. -/
theorem C2_amended_halt_emits_once_per_call (BLANK : Char) (eng : EngineOutcome)
    (s : ServerState) (h : s.tm.next_instruction = none) :
    (stepMachine BLANK eng s).running = false ∧
    (stepMachine BLANK eng s).out.map SentMsg.msg = s.out.map SentMsg.msg ++
      [.event "output" (some (outputBody "stdout"
          (haltReportText BLANK { s with running := false }))),
       .event "output" (some (outputBody "stdout" "\n")),
       .event "terminated" none,
       .event "exited" (some (.obj [("exitCode", .int 0)]))] := by
  simp [stepMachine, printHaltReport, h, sendEvent, sendMessage, bodyIfTruthy, jTruthy,
    outputBody]

theorem C2_amended_witness :
    (initServer haltedMachine).tm.next_instruction = none ∧
    ((stepMachine '0' engNoop (initServer haltedMachine)).running = false ∧
     (stepMachine '0' engNoop (initServer haltedMachine)).out.map SentMsg.msg =
       (initServer haltedMachine).out.map SentMsg.msg ++
         [.event "output" (some (outputBody "stdout"
             (haltReportText '0' { initServer haltedMachine with running := false }))),
          .event "output" (some (outputBody "stdout" "\n")),
          .event "terminated" none,
          .event "exited" (some (.obj [("exitCode", .int 0)]))]) :=
  ⟨rfl, C2_amended_halt_emits_once_per_call '0' engNoop (initServer haltedMachine) rfl⟩

/-- C2 counterexample: a session in which the machine halts (first
terminated/exited pair) and the client then sends continue: the handler
re-arms `running` and the next loop iteration emits a second terminated
event — two over the session, where the claim requires exactly one. -/
theorem C2_counterexample_second_terminated_after_continue :
    countEvent "terminated"
      (runLoop '0' [.req contReq engNoop, .req contReq engNoop]
        (initServer haltedMachine)).state = 2 ∧
    (2 : Nat) ≠ 1 :=
  ⟨rfl, by decide⟩

/-- C5 counterexample: `setBreakpoints` with `arguments.lines = [5,5]`
leaves a single active breakpoint at line 5, but the response's breakpoints
list contains one entry per requested line — two `{verified:true, line:5}`
entries, not exactly one. -/
theorem C5_counterexample_duplicate_response_entries :
    (handleRequest '0' bpReq55 (initServer haltedMachine)).state.breakpoints = [5] ∧
    (handleRequest '0' bpReq55 (initServer haltedMachine)).state.out.map SentMsg.msg =
      [.response 7 "setBreakpoints" true
        (some (.obj [("breakpoints", .arr
          [.obj [("verified", .bool true), ("line", .int 5)],
           .obj [("verified", .bool true), ("line", .int 5)]])]))
        none] ∧
    ([JVal.obj [("verified", .bool true), ("line", .int 5)],
      JVal.obj [("verified", .bool true), ("line", .int 5)]].length ≠ 1) :=
  ⟨rfl, rfl, by decide⟩

/-- C5 amended: `setBreakpoints` with `arguments.lines = [5,5]` collapses the
active breakpoint set to the single line 5 (dict-comprehension keys), while
the response's breakpoints list keeps one `{verified:true, line:5}` entry per
element of `lines`, i.e. two entries. -/
theorem C5_amended_one_response_entry_per_requested_line (req : Request)
    (s : ServerState) (n : Int) (c : String)
    (hargs : req.arguments? = some ⟨some [5, 5]⟩)
    (hseq : req.seq? = some n) (hcmd : req.command? = some c) :
    (handle_setBreakpoints req s).state.breakpoints = [5] ∧
    (handle_setBreakpoints req s).state.out.map SentMsg.msg =
      s.out.map SentMsg.msg ++
        [.response n c true
          (some (.obj [("breakpoints", .arr
            [.obj [("verified", .bool true), ("line", .int 5)],
             .obj [("verified", .bool true), ("line", .int 5)]])]))
          none] := by
  simp [handle_setBreakpoints, hargs, hseq, hcmd, sendResponse, sendMessage, dictKeys,
    HRes.state, bodyIfTruthy, jTruthy, msgIfTruthy]

theorem C5_amended_witness :
    bpReq55.arguments? = some ⟨some [5, 5]⟩ ∧
    bpReq55.seq? = some 7 ∧
    bpReq55.command? = some "setBreakpoints" ∧
    ((handle_setBreakpoints bpReq55 (initServer haltedMachine)).state.breakpoints = [5] ∧
     (handle_setBreakpoints bpReq55 (initServer haltedMachine)).state.out.map SentMsg.msg =
       (initServer haltedMachine).out.map SentMsg.msg ++
         [.response 7 "setBreakpoints" true
           (some (.obj [("breakpoints", .arr
             [.obj [("verified", .bool true), ("line", .int 5)],
              .obj [("verified", .bool true), ("line", .int 5)]])]))
           none]) :=
  ⟨rfl, rfl, rfl,
   C5_amended_one_response_entry_per_requested_line bpReq55 (initServer haltedMachine)
     7 "setBreakpoints" rfl rfl rfl⟩

/-- C7: when the engine raises while advancing (in `tm.step()` or in the
following `tm.peek()`), the server stops running, emits a stderr output
event describing the error followed by a stopped event with reason
"exception" (and no terminated/exited events), and the session stays alive:
any later request carrying seq and command fields is dispatched without an
exception escaping. -/
theorem C7_engine_fault_is_nonfatal (BLANK : Char) (s : ServerState)
    (instr : Instruction) (msg : String) (m : Machine) (eng : EngineOutcome)
    (hn : s.tm.next_instruction = some instr)
    (hskip : s.step_granularity = some "step" ∨ instr.line_number ∉ s.breakpoints)
    (heng : eng = .stepRaises msg m ∨ eng = .stepOkPeekRaises msg m) :
    (stepMachine BLANK eng s).running = false ∧
    (stepMachine BLANK eng s).out.map SentMsg.msg = s.out.map SentMsg.msg ++
      [.event "output" (some (outputBody "stderr" ("\nRUNTIME ERROR: " ++ msg ++ "\n"))),
       .event "stopped" (some (.obj [("reason", .str "exception"),
         ("description", .str "Paused on exception"),
         ("text", .str msg), ("threadId", .int 1)]))] ∧
    (∀ req : Request, req.seq?.isSome = true → req.command?.isSome = true →
      (handleRequest BLANK req (stepMachine BLANK eng s)).isRaised = false) := by
  have hcond : ¬(s.step_granularity ≠ some "step" ∧ instr.line_number ∈ s.breakpoints) := by
    rcases hskip with hg | hnb
    · intro hc; exact hc.1 hg
    · intro hc; exact hnb hc.2
  rcases heng with rfl | rfl <;>
    refine ⟨?_, ?_, fun req h1 h2 => handleRequest_keyed_not_raised BLANK req _ h1 h2⟩ <;>
    simp [stepMachine, hn, hcond, sendEvent, sendMessage, outputBody, bodyIfTruthy, jTruthy]

theorem C7_witness :
    c7State.tm.next_instruction = some ⟨2⟩ ∧
    (c7State.step_granularity = some "step" ∨ (2 : Int) ∉ c7State.breakpoints) ∧
    (EngineOutcome.stepRaises "boom" haltedMachine = .stepRaises "boom" haltedMachine ∨
     EngineOutcome.stepRaises "boom" haltedMachine = .stepOkPeekRaises "boom" haltedMachine) ∧
    ((stepMachine '0' (.stepRaises "boom" haltedMachine) c7State).running = false ∧
     (stepMachine '0' (.stepRaises "boom" haltedMachine) c7State).out.map SentMsg.msg =
       c7State.out.map SentMsg.msg ++
         [.event "output" (some (outputBody "stderr" ("\nRUNTIME ERROR: " ++ "boom" ++ "\n"))),
          .event "stopped" (some (.obj [("reason", .str "exception"),
            ("description", .str "Paused on exception"),
            ("text", .str "boom"), ("threadId", .int 1)]))] ∧
     (∀ req : Request, req.seq?.isSome = true → req.command?.isSome = true →
       (handleRequest '0' req
         (stepMachine '0' (.stepRaises "boom" haltedMachine) c7State)).isRaised = false)) :=
  ⟨rfl, Or.inr (by decide), Or.inl rfl,
   C7_engine_fault_is_nonfatal '0' c7State ⟨2⟩ "boom" haltedMachine
     (.stepRaises "boom" haltedMachine) rfl (Or.inr (by decide)) (Or.inl rfl)⟩

/-- C8: for a tape whose only visited cells are index -1 holding a and
index 0 holding b, head at index 0, the variables handler renders the tape
window as four default symbols and then a on the left, b in brackets, and
five default symbols on the right; that rendering appears as the value of
the "Tape 1" entry in the variables list the handler sends. -/
theorem C8_tape_window_rendering (BLANK : Char) :
    tapeDisplay BLANK c8Head =
      String.mk (List.replicate 4 BLANK) ++ "a" ++ "[" ++ "b" ++ "]" ++
        String.mk (List.replicate 5 BLANK) ∧
    (variablesList BLANK c8State).drop 3 =
      [.obj [("name", .str "Tape 1"),
             ("value", .str (String.mk (List.replicate 4 BLANK) ++ "a" ++ "[" ++ "b" ++ "]" ++
               String.mk (List.replicate 5 BLANK))),
             ("type", .str "string"), ("variablesReference", .int 0)]] := by
  constructor
  · rfl
  · rfl

theorem tapeSpan_length (BLANK : Char) (t : Tape) (h : t._tape ≠ []) :
    (tapeSpan BLANK t).length = (maxKey t - minKey t + 1).toNat := by
  rw [tapeSpan, if_neg h]
  show (List.map (fun k => tapeGet t k BLANK) (intRange (minKey t) (maxKey t))).length = _
  rw [intRange, List.length_map, List.length_map, List.length_range]

theorem tapeSpan_getElem (BLANK : Char) (t : Tape) (j : Nat)
    (h : t._tape ≠ []) (hj : j < (maxKey t - minKey t + 1).toNat) :
    (tapeSpan BLANK t).data[j]? = some (tapeGet t (minKey t + Int.ofNat j) BLANK) := by
  rw [tapeSpan, if_neg h]
  show (List.map (fun k => tapeGet t k BLANK) (intRange (minKey t) (maxKey t)))[j]? = _
  rw [intRange, List.getElem?_map, List.getElem?_map, List.getElem?_range]
  simp [hj]
  exact hj

theorem stripChar_decomposition (c : Char) (s : String) :
    ∃ k m : Nat,
      s.data = List.replicate k c ++ (stripChar c s).data ++ List.replicate m c := by
  refine ⟨(s.data.takeWhile (fun b => decide (b = c))).length,
          (((s.data.dropWhile (fun b => decide (b = c))).reverse.takeWhile
            (fun b => decide (b = c))).length), ?_⟩
  have htake : s.data.takeWhile (fun b => decide (b = c)) =
      List.replicate (s.data.takeWhile (fun b => decide (b = c))).length c := by
    refine List.eq_replicate_length.mpr ?_
    intro b hb
    have hpb := List.mem_takeWhile_imp hb
    simpa using hpb
  have htake2 : (s.data.dropWhile (fun b => decide (b = c))).reverse.takeWhile
      (fun b => decide (b = c)) =
      List.replicate ((s.data.dropWhile (fun b => decide (b = c))).reverse.takeWhile
        (fun b => decide (b = c))).length c := by
    refine List.eq_replicate_length.mpr ?_
    intro b hb
    have hpb := List.mem_takeWhile_imp hb
    simpa using hpb
  have h2 := congrArg List.reverse
    ((List.takeWhile_append_dropWhile (fun b => decide (b = c))
      (s.data.dropWhile (fun b => decide (b = c))).reverse).symm)
  rw [List.reverse_reverse, List.reverse_append] at h2
  have hB : ((s.data.dropWhile (fun b => decide (b = c))).reverse.takeWhile
      (fun b => decide (b = c))).reverse =
      List.replicate ((s.data.dropWhile (fun b => decide (b = c))).reverse.takeWhile
        (fun b => decide (b = c))).length c := by
    conv_lhs => rw [htake2]
    exact List.reverse_replicate _ _
  have hdrop : s.data.dropWhile (fun b => decide (b = c)) =
      ((s.data.dropWhile (fun b => decide (b = c))).reverse.dropWhile
        (fun b => decide (b = c))).reverse ++
      List.replicate ((s.data.dropWhile (fun b => decide (b = c))).reverse.takeWhile
        (fun b => decide (b = c))).length c := by
    conv_lhs => rw [h2]
    rw [hB]
  calc s.data
      = s.data.takeWhile (fun b => decide (b = c)) ++
        s.data.dropWhile (fun b => decide (b = c)) :=
        (List.takeWhile_append_dropWhile (fun b => decide (b = c)) s.data).symm
    _ = List.replicate (s.data.takeWhile (fun b => decide (b = c))).length c ++
        (((s.data.dropWhile (fun b => decide (b = c))).reverse.dropWhile
          (fun b => decide (b = c))).reverse ++
         List.replicate ((s.data.dropWhile (fun b => decide (b = c))).reverse.takeWhile
           (fun b => decide (b = c))).length c) := by
        conv_lhs => rw [htake, hdrop]
    _ = List.replicate (s.data.takeWhile (fun b => decide (b = c))).length c ++
        (stripChar c s).data ++
        List.replicate ((s.data.dropWhile (fun b => decide (b = c))).reverse.takeWhile
          (fun b => decide (b = c))).length c := by
        rw [List.append_assoc]
        rfl

/-- C6 amended: on transition to Halted the server renders each tape as the
contiguous string of symbols from its minimum to its maximum visited index,
with the engine default symbol filling unvisited gaps (conjuncts 2 and 3),
trims only the literal character '_' from both ends of that string (conjunct
4: the underscore padding removed at the two ends is all that is removed —
this equals default-symbol trimming only when the default symbol is '_'),
and emits the whole report as a single multi-line output event, followed by
the print newline output event, then terminated and exited, in that
order (conjunct 1). -/
theorem C6_amended_halt_report_structure (BLANK : Char) (eng : EngineOutcome)
    (s : ServerState) (h : s.tm.next_instruction = none) :
    ((stepMachine BLANK eng s).out.map SentMsg.msg = s.out.map SentMsg.msg ++
      [.event "output" (some (outputBody "stdout"
          (haltReportText BLANK { s with running := false }))),
       .event "output" (some (outputBody "stdout" "\n")),
       .event "terminated" none,
       .event "exited" (some (.obj [("exitCode", .int 0)]))]) ∧
    (∀ t : Tape, t._tape ≠ [] →
      (tapeSpan BLANK t).length = (maxKey t - minKey t + 1).toNat) ∧
    (∀ (t : Tape) (j : Nat), t._tape ≠ [] → j < (maxKey t - minKey t + 1).toNat →
      (tapeSpan BLANK t).data[j]? = some (tapeGet t (minKey t + Int.ofNat j) BLANK)) ∧
    (∀ str : String, ∃ k m : Nat,
      str.data = List.replicate k '_' ++ (stripChar '_' str).data ++ List.replicate m '_') := by
  refine ⟨?_, fun t ht => tapeSpan_length BLANK t ht,
    fun t j ht hj => tapeSpan_getElem BLANK t j ht hj,
    fun str => stripChar_decomposition '_' str⟩
  simp [stepMachine, printHaltReport, h, sendEvent, sendMessage, bodyIfTruthy, jTruthy,
    outputBody]

theorem C6_amended_witness :
    (initServer haltedMachine10).tm.next_instruction = none ∧
    (((stepMachine '0' engNoop (initServer haltedMachine10)).out.map SentMsg.msg =
        (initServer haltedMachine10).out.map SentMsg.msg ++
        [.event "output" (some (outputBody "stdout"
            (haltReportText '0' { initServer haltedMachine10 with running := false }))),
         .event "output" (some (outputBody "stdout" "\n")),
         .event "terminated" none,
         .event "exited" (some (.obj [("exitCode", .int 0)]))]) ∧
     (∀ t : Tape, t._tape ≠ [] →
       (tapeSpan '0' t).length = (maxKey t - minKey t + 1).toNat) ∧
     (∀ (t : Tape) (j : Nat), t._tape ≠ [] → j < (maxKey t - minKey t + 1).toNat →
       (tapeSpan '0' t).data[j]? = some (tapeGet t (minKey t + Int.ofNat j) '0')) ∧
     (∀ str : String, ∃ k m : Nat,
       str.data = List.replicate k '_' ++ (stripChar '_' str).data ++ List.replicate m '_')) :=
  ⟨rfl, C6_amended_halt_report_structure '0' engNoop (initServer haltedMachine10) rfl⟩

/-- C6 counterexample: with default symbol '0' and a halted machine whose
only tape holds index 0 an unstripped '1' and index 1 a '0', the emitted
halt line is "Tape 1: 10": the trailing default symbol stays because the
code strips the literal character '_' rather than the default symbol, while
trimming default-symbol padding as the claim states would give "Tape 1: 1". -/
theorem C6_counterexample_trims_underscore_not_default :
    (haltReportLines '0' (initServer haltedMachine10)).getLast? = some "Tape 1: 10" ∧
    ((stepMachine '0' engNoop (initServer haltedMachine10)).out.map SentMsg.msg).head? =
      some (.event "output" (some (outputBody "stdout"
        ("\nHALTED at state \x27q0\x27\nTime taken: 0 steps\nSpace used: 2 cells\nNumber of tapes: 1\nTape 1: 10\n")))) ∧
    "Tape 1: " ++ stripChar '0' (tapeSpan '0' tape10) = "Tape 1: 1" ∧
    ("Tape 1: 10" : String) ≠ "Tape 1: 1" :=
  ⟨rfl, rfl, rfl, by decide⟩
